import Mathlib

/-!
# Verification of the guest conversation session lifecycle

Shallow embedding of the WhatsApp webhook service of a hotel customer-service
backend: phone-number normalization (`app/utils/phone_utils.py`), the generic
pagination helper (`app/core/pagination.py`), the H2H reply extraction and the
session lifecycle handler (`app/services/webhook_service.py`), and the
repository operations they call (`app/repositories/guest_repository.py`).

Modelling conventions:
* timestamps are natural numbers counting whole seconds (UTC);
* database rows are records in lists; soft deletion is a `deleted` flag
  standing for a non-null `deleted_at`;
* UUIDs are natural numbers; freshly inserted sessions take the next counter
  value, standing for the freshness of generated UUIDs;
* external calls (WAHA gateway, H2H agent router) are recorded as effect
  lists; their success or failure is an environment parameter;
* database statements themselves are assumed not to fail (connection loss
  and constraint violations are outside the embedding).

The snapshot's `app/models/user.py` and `app/models/checkin.py` are files of
an older generation of the schema (they declare `Checkin`, a `User` without
`mobile_phone`/`deleted_at`, and none of the relationships the rest of the
code requires), so the current ORM declarations for users, check-in rooms and
the agent fields of sessions are not present; the corresponding record fields
below are modelled from the spec and from the migration scripts
(`001_new_schema.py`, `add_agent_fields_to_sessions.py`), which declare the
columns `users.mobile_phone`, `users.deleted_at`, the `checkin_rooms` table
and `sessions.agent_created` (default false) / `sessions.category`.
-/

set_option maxRecDepth 16000

namespace MtaSga

/-! ## Python string primitives

Character-level, structurally recursive implementations of the Python
string methods the service uses (`str.strip`, `str.replace`), so that every
definition evaluates by kernel reduction on concrete inputs. -/

/-- `str.strip()` with no argument: remove leading and trailing whitespace
(the inputs of interest are ASCII, where Python's whitespace set and
`Char.isWhitespace` agree). -/
def pyStrip (s : String) : String :=
  String.mk
    (((s.data.dropWhile Char.isWhitespace).reverse.dropWhile
      Char.isWhitespace).reverse)

/-- Left-to-right, non-overlapping replacement of the nonempty pattern
`pat` by `rep`; `fuel` bounds the recursion (the input length suffices). -/
def pyReplaceGo (pat rep : List Char) : Nat → List Char → List Char
  | 0, l => l
  | _ + 1, [] => []
  | fuel + 1, c :: cs =>
    if pat.isPrefixOf (c :: cs) then
      rep ++ pyReplaceGo pat rep fuel ((c :: cs).drop pat.length)
    else c :: pyReplaceGo pat rep fuel cs

/-- `s.replace(pat, rep)` for a nonempty pattern (every use site passes
one): replace every occurrence, scanning left to right. -/
def pyReplace (s pat rep : String) : String :=
  if pat.data.isEmpty then s
  else String.mk (pyReplaceGo pat.data rep.data s.data.length s.data)

/-! ## Phone number utilities (`app/utils/phone_utils.py`)

The Python functions work on strings; we express their character-level
content on `List Char` and wrap the string interface around it.
`str.isdigit` is modelled by `Char.isDigit` (the inputs of interest are
ASCII). -/

/-- `''.join(filter(str.isdigit, phone_number))`. -/
def pyDigits (l : List Char) : List Char := l.filter Char.isDigit

/-- Character-level content of `format_phone_international_id`. -/
def intlCoreList (l : List Char) : List Char :=
  if l.isEmpty then l
  else
    let d := pyDigits l
    if d.isEmpty then l
    else if d.take 2 = ['6', '2'] then d
    else if d.take 1 = ['0'] then '6' :: '2' :: d.tail
    else '6' :: '2' :: d

/-- Character-level content of `format_phone_local_id`. -/
def localCoreList (l : List Char) : List Char :=
  if l.isEmpty then l
  else
    let d := pyDigits l
    if d.isEmpty then l
    else if d.take 2 = ['6', '2'] then '0' :: d.drop 2
    else if d.take 1 = ['0'] then d
    else '0' :: d

/-- `format_phone_international_id`: normalize to the `62`-prefixed
international format. Empty input and input without any digit are returned
unchanged. -/
def format_phone_international_id (s : String) : String :=
  String.mk (intlCoreList s.data)

/-- `format_phone_local_id`: normalize to the `0`-prefixed local format.
Empty input and input without any digit are returned unchanged. -/
def format_phone_local_id (s : String) : String :=
  String.mk (localCoreList s.data)

/-- The domain of claim C8: a digit-only string, possibly with a single
leading `+`. -/
def digitOnlyPhone (s : String) : Prop :=
  s.data.all Char.isDigit = true ∨
    (s.data.take 1 = ['+'] ∧ s.data.tail.all Char.isDigit = true)

instance (s : String) : Decidable (digitOnlyPhone s) := by
  unfold digitOnlyPhone; infer_instance

/-! ## Pagination helper (`app/core/pagination.py`) -/

/-- Pagination metadata, as built by `paginate_query`. -/
structure PaginationMeta where
  page : Nat
  per_page : Nat
  total : Nat
  total_pages : Nat
  has_next : Bool
  has_prev : Bool
  deriving Repr, DecidableEq

/-- Paginated response with data and metadata. -/
structure PaginatedResponse (α : Type) where
  data : List α
  meta : PaginationMeta
  deriving Repr

/-- `paginate_query` over the filtered result set of the base query:
`items` is the row list the filtered, unordered statement denotes, so
`total` (the count of the subquery) is its length, and OFFSET/LIMIT
pagination is drop/take. The request domain of the claims has
`page ≥ 1` and `per_page ≥ 1`. -/
def paginate_query (items : List α) (page per_page : Nat) :
    PaginatedResponse α :=
  let total := items.length
  let offset := (page - 1) * per_page
  let data := (items.drop offset).take per_page
  let total_pages := if total > 0 then (total + per_page - 1) / per_page else 0
  { data := data
    meta :=
      { page := page
        per_page := per_page
        total := total
        total_pages := total_pages
        has_next := decide (page < total_pages) && decide (total_pages > 0)
        has_prev := decide (page > 1) && decide (total_pages > 0) } }

/-! ## H2H reply extraction (`WebhookService._send_h2h_message_background`) -/

/-- JSON values, the shape of `response.json()` returned by
`H2HAgentRouterService.send_chat_message` (numbers modelled as integers:
no claim depends on fractional values). -/
inductive Json where
  | null
  | bool (b : Bool)
  | num (n : Int)
  | str (s : String)
  | arr (xs : List Json)
  | obj (fields : List (String × Json))

/-- Python truthiness of a JSON value. -/
def jsonTruthy : Json → Bool
  | .null => false
  | .bool b => b
  | .num n => decide (n ≠ 0)
  | .str s => decide (s ≠ "")
  | .arr xs => !xs.isEmpty
  | .obj fs => !fs.isEmpty

/-- `dict.get(k)`: `none` models Python `None` for an absent key. -/
def dictGet (fs : List (String × Json)) (k : String) : Option Json :=
  (fs.find? fun kv => kv.1 == k).map (·.2)

/-- Python `x or y` on optional JSON values (`none` is Python `None`,
which is falsy). -/
def pyOr (a b : Option Json) : Option Json :=
  match a with
  | some v => if jsonTruthy v then some v else b
  | none => b

/-- Exceptions of the modelled fragment. -/
inductive PyErr where
  | attributeError
  deriving Repr, DecidableEq

/-- `isinstance(v, dict)` on an optional Python value (`none` = `None`). -/
def isDictVal : Option Json → Bool
  | some (.obj _) => true
  | _ => false

/-- Attribute access `v.get(k)` on the Python value `v` (`none` = `None`):
only a dict has a `get` method, every other value raises `AttributeError`. -/
def pyGetAttrGet (v : Option Json) (k : String) : Except PyErr (Option Json) :=
  match v with
  | some (.obj fs) => .ok (dictGet fs k)
  | _ => .error .attributeError

/-- Lines 124–137 of `webhook_service.py`: extract the reply message from
the H2H response. When `result["data"]` is a dict, take its `"responses"`
key; otherwise the code re-evaluates `result.get("data").get("responses")`
inside the `or`-chain over the fallback keys, which raises before any
fallback key is read. Non-dict `result` leaves `reply_message = None`. -/
def extractReply (result : Json) : Except PyErr (Option Json) :=
  match result with
  | .obj fs =>
    match dictGet fs "data" with
    | some (.obj dfs) => .ok (dictGet dfs "responses")
    | _ =>
      match pyGetAttrGet (dictGet fs "data") "responses" with
      | .error e => .error e
      | .ok r =>
        .ok (pyOr r (pyOr (dictGet fs "reply") (pyOr (dictGet fs "content")
          (pyOr (dictGet fs "response") (dictGet fs "text")))))
  | _ => .ok none

/-- `WebhookService._send_h2h_message_background`, reduced to its observable
effect: the list of replies forwarded to the guest via WAHA. The H2H call
result is `Except Unit Json` (`error` = the call raised). All exceptions are
caught and only logged, so an extraction failure forwards nothing. -/
def send_h2h_message_background (h2hResult : Except Unit Json)
    (phone_number : String) : List (String × Json) :=
  match h2hResult with
  | .error _ => []
  | .ok result =>
    match extractReply result with
    | .error _ => []
    | .ok reply_message =>
      match reply_message with
      | some v =>
        if jsonTruthy v then
          [(format_phone_international_id phone_number, v)]
        else []
      | none => []

/-! ## Data model

Record shapes follow the `sessions`/`messages` ORM models and, for users and
check-in rooms, the migration scripts (see the header comment): the current
ORM files for those two tables are not in the snapshot. -/

/-- `SessionStatus` enum. -/
inductive SessionStatus where
  | «open»
  | terminated
  deriving Repr, DecidableEq

/-- `SessionMode` enum. -/
inductive SessionMode where
  | agent
  | manual
  deriving Repr, DecidableEq

/-- `MessageRole` enum. -/
inductive MessageRole where
  | System
  | User
  deriving Repr, DecidableEq

/-- A `users` row. Modelled from the spec and `001_new_schema.py`
(`users.mobile_phone`, `users.deleted_at`): the guest identity record,
looked up by phone number. -/
structure UserRec where
  id : Nat
  name : String
  mobile_phone : Option String
  deleted : Bool
  deriving Repr, DecidableEq

/-- A `sessions` row. `agent_created`/`category` are modelled from the spec
and `add_agent_fields_to_sessions.py` (`agent_created` boolean, server
default false; `category` nullable string); the remaining columns follow
`app/models/session.py`. `session_id` is the owning user's id (that is the
column's name in the source). -/
structure SessionRec where
  id : Nat
  status : SessionStatus
  mode : SessionMode
  start : Option Nat
  «end» : Option Nat
  duration : Option Int
  session_id : Option Nat
  checkin_room_id : Option Nat
  agent_created : Bool
  category : Option String
  updated_at : Nat
  deleted : Bool
  deriving Repr, DecidableEq

/-- A `messages` row (`app/models/message.py`): append-only conversation
line. -/
structure MessageRec where
  session_id : Nat
  role : MessageRole
  text : String
  deriving Repr, DecidableEq

/-- A `checkin_rooms` row. Modelled from the spec and `001_new_schema.py` /
`61997bf04f55_rename_user_id_to_guest_id_and_add_.py` (`guest_id`, `status`,
`created_at`, `deleted_at`): a guest's room-stay record. -/
structure CheckinRec where
  id : Nat
  guest_id : Option Nat
  status : String
  created_at : Nat
  deleted : Bool
  deriving Repr, DecidableEq

/-- The database state touched by the webhook service. `nextSessionId` is
the id the next inserted session receives (freshness of generated UUIDs). -/
structure DB where
  users : List UserRec
  sessions : List SessionRec
  checkins : List CheckinRec
  messages : List MessageRec
  nextSessionId : Nat
  deriving Repr, DecidableEq

/-! ## Repository operations (`app/repositories/guest_repository.py`) -/

/-- `get_user_by_phone`: `mobile_phone == phone` and not soft-deleted. -/
def get_user_by_phone (db : DB) (phone : String) : Option UserRec :=
  db.users.find? fun u =>
    decide (u.mobile_phone = some phone) && !u.deleted

/-- `get_active_session_by_user_id`: `session_id == user_id`,
`status == open`, not soft-deleted. -/
def get_active_session_by_user_id (db : DB) (uid : Nat) : Option SessionRec :=
  db.sessions.find? fun s =>
    decide (s.session_id = some uid) && decide (s.status = .«open») && !s.deleted

/-- `get_session_by_id`: by primary key, not soft-deleted. -/
def get_session_by_id (db : DB) (sid : Nat) : Option SessionRec :=
  db.sessions.find? fun s => decide (s.id = sid) && !s.deleted

/-- `get_active_checkin_by_guest_id`: latest (`created_at` descending,
limit 1) non-deleted check-in room of the guest with status `"active"`. -/
def get_active_checkin_by_guest_id (db : DB) (uid : Nat) : Option CheckinRec :=
  (db.checkins.filter fun c =>
      decide (c.guest_id = some uid) && decide (c.status = "active") && !c.deleted).foldl
    (fun acc c =>
      match acc with
      | none => some c
      | some a => if a.created_at < c.created_at then some c else some a)
    none

/-- `get_session_with_user`: the session by primary key (not soft-deleted)
together with the `Session.user` relationship target — the user row joined
on `session_id` (the relationship applies no soft-delete filter). -/
def get_session_with_user (db : DB) (sid : Nat) :
    Option (SessionRec × Option UserRec) :=
  (db.sessions.find? fun s => decide (s.id = sid) && !s.deleted).map fun s =>
    (s, s.session_id.bind fun uid => db.users.find? fun u => decide (u.id = uid))

/-- Apply `f` to the ORM object `get_session_by_id` would return: the
non-deleted row with the given primary key (the map leaves every other row
unchanged; primary keys are unique). -/
def mutateSession (db : DB) (sid : Nat) (f : SessionRec → SessionRec) : DB :=
  { db with
    sessions := db.sessions.map fun s =>
      if decide (s.id = sid) && !s.deleted then f s else s }

/-- `create_session`: insert an open, agent-mode session for the guest with
`start = now`; `created_at`/`updated_at` take the server default `now()`;
`agent_created` takes its server default `false` and `category` is null.
Returns the new row and the updated database. -/
def create_session (db : DB) (uid : Nat) (crid : Nat) (now : Nat) :
    SessionRec × DB :=
  let s : SessionRec :=
    { id := db.nextSessionId
      status := .«open»
      mode := .agent
      start := some now
      «end» := none
      duration := none
      session_id := some uid
      checkin_room_id := some crid
      agent_created := false
      category := none
      updated_at := now
      deleted := false }
  (s, { db with
          sessions := db.sessions ++ [s]
          nextSessionId := db.nextSessionId + 1 })

/-- The row update of `create_message` on the owning session:
`session.updated_at = datetime.now(timezone.utc)`. -/
def bumpF (now : Nat) (s : SessionRec) : SessionRec :=
  { s with updated_at := now }

/-- `create_message`: bump the owning session's `updated_at` to now (when the
session exists), then insert the message row. -/
def create_message (db : DB) (sid : Nat) (role : MessageRole) (text : String)
    (now : Nat) : DB :=
  let db := mutateSession db sid (bumpF now)
  { db with messages := db.messages ++ [⟨sid, role, text⟩] }

/-- The row update of `terminate_session`: set `end = now`,
`status = terminated` and, when `start` is set,
`duration = int((end - start).total_seconds())`. -/
def termF (now : Nat) (s : SessionRec) : SessionRec :=
  let s' := { s with «end» := some now, status := .terminated }
  match s'.start with
  | some st => { s' with duration := some ((now : Int) - (st : Int)) }
  | none => s'

/-- `terminate_session`: apply `termF` to the session. A session id with no
(non-deleted) row leaves the database unchanged. -/
def terminate_session (db : DB) (sid : Nat) (now : Nat) : DB :=
  mutateSession db sid (termF now)

/-- The row update of `update_session_agent_status`: set `agent_created`,
and `category` only when a truthy (non-empty) category is passed. -/
def agentF (agent_created : Bool) (category : Option String)
    (s : SessionRec) : SessionRec :=
  { s with
    agent_created := agent_created
    category :=
      match category with
      | some c => if c = "" then s.category else some c
      | none => s.category }

/-- `update_session_agent_status`: apply `agentF` to the session. -/
def update_session_agent_status (db : DB) (sid : Nat) (agent_created : Bool)
    (category : Option String) : DB :=
  mutateSession db sid (agentF agent_created category)

/-! ## Webhook service (`app/services/webhook_service.py`) -/

/-- `_extract_phone_from_chat_id`: `chat_id.replace("@c.us", "")`. -/
def extract_phone_from_chat_id (chat_id : String) : String :=
  pyReplace chat_id "@c.us" ""

/-- `title()` of a Python string: uppercase every letter that does not
follow a letter, lowercase the others. -/
def pyTitleGo : Bool → List Char → List Char
  | _, [] => []
  | prevAlpha, c :: cs =>
    (if c.isAlpha then (if prevAlpha then c.toLower else c.toUpper) else c)
      :: pyTitleGo c.isAlpha cs

/-- `category.replace('_', ' ').title()`. -/
def categoryDisplay (category : String) : String :=
  String.mk (pyTitleGo false (pyReplace category "_" " ").data)

/-- The welcome text of `_send_welcome_message` (emojis of the literal
omitted; no claim inspects the text). -/
def welcomeText (user_name : String) : String :=
  "Halo " ++ user_name ++ "!\n\n" ++
  "Selamat datang kembali! Kami siap membantu Anda.\n\n" ++
  "Pilih Salah 1 Kategori dibawah:\n" ++
  "1. General Information\n2. Room Service\n3. Customer Service\n\n" ++
  "Silahkan kirim 1, 2, atau 3 untuk memilih kategori yang Anda inginkan.\n" ++
  "Ketik /end untuk mengakhiri percakapan.\n\nTerima kasih!"

/-- The goodbye text sent after `/end`. -/
def goodbyeText : String :=
  "Terima kasih telah menghubungi kami!\n\n" ++
  "Sesi percakapan telah berakhir.\n" ++
  "Silakan kirim pesan baru jika Anda membutuhkan bantuan lagi.\n\nSampai jumpa!"

/-- The confirmation text sent after successful agent creation. -/
def confirmationText (category : String) : String :=
  "Terima kasih!\n\nAnda telah memilih kategori: " ++ categoryDisplay category ++
  "\n\nKami siap membantu Anda. Silakan kirim pesan Anda dan " ++
  "tim kami akan segera merespons.\n\n" ++
  "Ketik /end kapan saja untuk mengakhiri percakapan."

/-- The error text sent when agent creation fails. -/
def agentErrorText : String :=
  "Maaf, terjadi kesalahan saat memproses permintaan Anda.\n\n" ++
  "Silakan coba lagi dengan mengirim nomor kategori (1, 2, atau 3)."

/-- The reminder text sent on an invalid category command. -/
def reminderText : String :=
  "Mohon pilih kategori dengan mengirim:\n" ++
  "1. General Information\n2. Room Service\n3. Customer Service\n\n" ++
  "Silakan kirim 1, 2, atau 3."

/-- The waiting text sent while the agent is not yet available. -/
def waitingText : String :=
  "Asisten anda sedang di persiapkan. Silahkan coba beberapa saat lagi."

/-- `_parse_category_command`: trimmed body `"1"`, `"2"`, `"3"` map to the
three categories; anything else is no command. -/
def _parse_category_command (message_text : String) : Option String :=
  let message_text := pyStrip message_text
  if message_text = "1" then some "general_information"
  else if message_text = "2" then some "room_service"
  else if message_text = "3" then some "customer_service"
  else none

/-- The fields of the WAHA message payload the handler reads. -/
structure MessagePayload where
  fromMe : Bool
  from_ : String
  body : Option String
  deriving Repr, DecidableEq

/-- Environment of one `handle_incoming_message` call: the arrival time
(one clock reading stands for the near-identical `datetime.now` calls of
the request) and the outcomes of the external H2H calls.
`agentAvailable` is the value `_check_agent_available` returns (it maps an
exception of the availability call to `false` itself). `createAgentOk` is
whether `h2h_service.create_agent` succeeds. -/
structure Env where
  now : Nat
  createAgentOk : Bool
  agentAvailable : Bool
  deriving Repr, DecidableEq

/-- Observable outcome of one `handle_incoming_message` call: the database
after the last commit, the WAHA text messages attempted (international
phone, text), the typing indicators attempted, the `create_agent` calls
attempted (session id, category) and the queued background tasks
(session id, message, local phone). Send failures are caught (or arrive
after the last commit) and never change the database, so they are recorded
as attempts. -/
structure HandleResult where
  db : DB
  wahaSent : List (String × String)
  typingSent : List String
  createAgentCalls : List (Nat × String)
  bgTasks : List (Nat × String × String)
  deriving Repr, DecidableEq

/-- `handle_incoming_message`, lines 205–486 of `webhook_service.py`. -/
def handle_incoming_message (db : DB) (p : MessagePayload) (env : Env) :
    HandleResult :=
  if p.fromMe then ⟨db, [], [], [], []⟩
  else
    let phone_number := format_phone_local_id (extract_phone_from_chat_id p.from_)
    match get_user_by_phone db phone_number with
    | none => ⟨db, [], [], [], []⟩
    | some user =>
      let session? := get_active_session_by_user_id db user.id
      let expired :=
        match session? with
        | none => false
        | some s => decide (1800 < env.now - s.updated_at)
      let db0 :=
        match session? with
        | some s => if expired then terminate_session db s.id env.now else db
        | none => db
      let needsCreation := session?.isNone || expired
      if needsCreation then
        match get_active_checkin_by_guest_id db0 user.id with
        | none => ⟨db0, [], [], [], []⟩
        | some checkin_room =>
          let session := (create_session db0 user.id checkin_room.id env.now).1
          let db1 := (create_session db0 user.id checkin_room.id env.now).2
          let db2 := create_message db1 session.id .System (welcomeText user.name)
            env.now
          let db3 := create_message db2 session.id .User (p.body.getD "") env.now
          ⟨db3,
           [(format_phone_international_id phone_number, welcomeText user.name)],
           [], [], []⟩
      else
        match session? with
        | none => ⟨db0, [], [], [], []⟩
        | some session =>
          let user_message := pyStrip (p.body.getD "")
          if user_message = "/end" then
            let db1 := create_message db0 session.id .User user_message env.now
            let db2 := terminate_session db1 session.id env.now
            ⟨db2, [(format_phone_international_id phone_number, goodbyeText)],
             [], [], []⟩
          else
            let db1 := create_message db0 session.id .User (p.body.getD "") env.now
            if !session.agent_created then
              match _parse_category_command user_message with
              | some category =>
                if env.createAgentOk then
                  let db2 := update_session_agent_status db1 session.id true
                    (some category)
                  let db3 := create_message db2 session.id .System
                    (confirmationText category) env.now
                  ⟨db3,
                   [(format_phone_international_id phone_number,
                     confirmationText category)],
                   [], [(session.id, category)], []⟩
                else
                  ⟨db1,
                   [(format_phone_international_id phone_number, agentErrorText)],
                   [], [(session.id, category)], []⟩
              | none =>
                ⟨db1, [(format_phone_international_id phone_number, reminderText)],
                 [], [], []⟩
            else
              if !env.agentAvailable then
                let db2 := create_message db1 session.id .System waitingText env.now
                ⟨db2, [(format_phone_international_id phone_number, waitingText)],
                 [], [], []⟩
              else
                ⟨db1, [], [format_phone_international_id phone_number], [],
                 [(session.id, user_message, phone_number)]⟩

/-- Fold `handle_incoming_message` over a sequence of inbound messages,
keeping only the database. -/
def handleMany (db : DB) (msgs : List (MessagePayload × Env)) : DB :=
  msgs.foldl (fun d pe => (handle_incoming_message d pe.1 pe.2).db) db

/-- Outcome of `WebhookService.send_message`. -/
inductive SendOutcome where
  | success
  | notFound
  | badRequest
  | internalError
  deriving Repr, DecidableEq

/-- Result of one `send_message` call: database after the call, attempted
gateway sends, and outcome (`success` covers both the normal path and the
terminated-session no-op; errors are `ComposeError`s with the
corresponding code). -/
structure SendResult where
  db : DB
  wahaSent : List (String × String)
  outcome : SendOutcome
  deriving Repr, DecidableEq

/-- `WebhookService.send_message`, lines 488–567. `wahaOk` is whether the
gateway call succeeds; on failure the transaction is rolled back, so the
message recorded inside it is discarded and an internal error is raised. -/
def send_message (db : DB) (session_id : Nat) (message : String) (now : Nat)
    (wahaOk : Bool) : SendResult :=
  match get_session_with_user db session_id with
  | none => ⟨db, [], .notFound⟩
  | some (session, user?) =>
    match user? with
    | none => ⟨db, [], .notFound⟩
    | some user =>
      if session.status = .terminated then ⟨db, [], .success⟩
      else if user.mobile_phone.getD "" = "" then ⟨db, [], .badRequest⟩
      else
        let db1 :=
          if session.mode = .agent then
            create_message db session.id .System message now
          else db
        let waha_phone := format_phone_international_id (user.mobile_phone.getD "")
        if wahaOk then ⟨db1, [(waha_phone, message)], .success⟩
        else ⟨db, [(waha_phone, message)], .internalError⟩

/-! ## Lemmas about phone normalization -/

lemma pyDigits_of_all {l : List Char} (h : l.all Char.isDigit = true) :
    pyDigits l = l := by
  unfold pyDigits
  exact List.filter_eq_self.2 (by simpa [List.all_eq_true] using h)

lemma pyDigits_cons_digit {c : Char} {l : List Char} (hc : c.isDigit = true) :
    pyDigits (c :: l) = c :: pyDigits l := by
  simp [pyDigits, List.filter_cons, hc]

/-- `intlCoreList` and `localCoreList` on a `62`-headed digit list. -/
lemma core_62 {t : List Char} (h : t.all Char.isDigit = true) :
    intlCoreList ('6' :: '2' :: t) = '6' :: '2' :: t ∧
    localCoreList ('6' :: '2' :: t) = '0' :: t := by
  have hd : pyDigits ('6' :: '2' :: t) = '6' :: '2' :: t := by
    rw [pyDigits_cons_digit (by decide), pyDigits_cons_digit (by decide),
      pyDigits_of_all h]
  constructor
  · unfold intlCoreList
    simp [hd]
  · unfold localCoreList
    simp [hd]

/-- `intlCoreList` and `localCoreList` on a `0`-headed digit list. -/
lemma core_0 {t : List Char} (h : t.all Char.isDigit = true) :
    intlCoreList ('0' :: t) = '6' :: '2' :: t ∧
    localCoreList ('0' :: t) = '0' :: t := by
  have hd : pyDigits ('0' :: t) = '0' :: t := by
    rw [pyDigits_cons_digit (by decide), pyDigits_of_all h]
  have h62 : ('0' :: t).take 2 ≠ ['6', '2'] := by
    cases t <;> simp [List.take]
  constructor
  · unfold intlCoreList
    simp [hd, h62]
  · unfold localCoreList
    simp [hd, h62]

/-- `intlCoreList` and `localCoreList` on a nonempty digit list starting
neither with `62` nor with `0`. -/
lemma core_other {d : List Char} (h : d.all Char.isDigit = true)
    (hne : d ≠ []) (h62 : d.take 2 ≠ ['6', '2']) (h0 : d.take 1 ≠ ['0']) :
    intlCoreList d = '6' :: '2' :: d ∧ localCoreList d = '0' :: d := by
  have hd : pyDigits d = d := pyDigits_of_all h
  have hemp : d.isEmpty = false := by
    cases d with
    | nil => exact absurd rfl hne
    | cons c t => rfl
  constructor
  · unfold intlCoreList
    simp [hd, hemp, h62, h0]
  · unfold localCoreList
    simp [hd, hemp, h62, h0]

/-- Round trips of the two normalizations on digit-only lists. -/
lemma roundtrip_digits (d : List Char) (h : d.all Char.isDigit = true) :
    localCoreList (intlCoreList d) = localCoreList d ∧
    intlCoreList (localCoreList d) = intlCoreList d := by
  by_cases hne : d = []
  · subst hne; constructor <;> rfl
  by_cases h62 : d.take 2 = ['6', '2']
  · -- d = '6' :: '2' :: t
    obtain ⟨t, rfl⟩ : ∃ t, d = '6' :: '2' :: t := by
      match d, h62 with
      | c1 :: c2 :: t, h62 =>
        simp [List.take] at h62
        exact ⟨t, by rw [h62.1, h62.2]⟩
    have ht : t.all Char.isDigit = true := by
      simp only [List.all_cons, Bool.and_eq_true] at h; exact h.2.2
    obtain ⟨hi, hl⟩ := core_62 ht
    refine ⟨by rw [hi], ?_⟩
    rw [hl, hi, (core_0 ht).1]
  by_cases h0 : d.take 1 = ['0']
  · -- d = '0' :: t
    obtain ⟨t, rfl⟩ : ∃ t, d = '0' :: t := by
      match d, h0 with
      | c1 :: t, h0 =>
        simp [List.take] at h0
        exact ⟨t, by rw [h0]⟩
    have ht : t.all Char.isDigit = true := by
      simp only [List.all_cons, Bool.and_eq_true] at h; exact h.2
    obtain ⟨hi, hl⟩ := core_0 ht
    refine ⟨?_, by rw [hl, hi]⟩
    rw [hi, (core_62 ht).2, hl]
  obtain ⟨hi, hl⟩ := core_other h hne h62 h0
  constructor
  · rw [hi, (core_62 h).2, hl]
  · rw [hl, (core_0 h).1, hi]

/-- A leading `+` is removed by the digit filter and does not change either
normalization (on an otherwise digit-only, nonempty input). -/
lemma core_plus (t : List Char) (h : t.all Char.isDigit = true) (hne : t ≠ []) :
    intlCoreList ('+' :: t) = intlCoreList t ∧
    localCoreList ('+' :: t) = localCoreList t := by
  have hd : pyDigits ('+' :: t) = t := by
    have : pyDigits ('+' :: t) = pyDigits t := by
      simp [pyDigits, List.filter_cons]
    rw [this, pyDigits_of_all h]
  cases t with
  | nil => exact absurd rfl hne
  | cons c t' =>
    have hdt : pyDigits (c :: t') = c :: t' := pyDigits_of_all h
    constructor
    · unfold intlCoreList
      simp [hd, hdt]
    · unfold localCoreList
      simp [hd, hdt]

/-- **C8**: Phone normalization round-trips: for every digit-only string
`p` — with or without a leading `0`, `62`, or `+` —
`format_phone_local_id (format_phone_international_id p)` equals
`format_phone_local_id p`, and
`format_phone_international_id (format_phone_local_id p)` equals
`format_phone_international_id p`. -/
theorem spec_C8_phone_roundtrip (p : String) (h : digitOnlyPhone p) :
    format_phone_local_id (format_phone_international_id p) =
      format_phone_local_id p ∧
    format_phone_international_id (format_phone_local_id p) =
      format_phone_international_id p := by
  obtain ⟨l⟩ := p
  have hgoal :
      localCoreList (intlCoreList l) = localCoreList l ∧
      intlCoreList (localCoreList l) = intlCoreList l := by
    rcases h with hall | ⟨hplus, htail⟩
    · exact roundtrip_digits l hall
    · obtain ⟨t, rfl⟩ : ∃ t, l = '+' :: t := by
        match l, hplus with
        | c :: t, hplus =>
          simp [List.take] at hplus
          exact ⟨t, by rw [hplus]⟩
      simp only [List.tail_cons] at htail
      cases t with
      | nil => exact ⟨rfl, rfl⟩
      | cons c t' =>
        obtain ⟨hip, hlp⟩ := core_plus (c :: t') htail (by simp)
        obtain ⟨h1, h2⟩ := roundtrip_digits (c :: t') htail
        exact ⟨by rw [hip, h1, hlp], by rw [hlp, h2, hip]⟩
  exact ⟨congrArg String.mk hgoal.1, congrArg String.mk hgoal.2⟩

/-- Witness for C8 at the concrete local-format number `081234567890`. -/
theorem spec_C8_witness :
    digitOnlyPhone "081234567890" ∧
    (format_phone_local_id (format_phone_international_id "081234567890") =
        format_phone_local_id "081234567890" ∧
      format_phone_international_id (format_phone_local_id "081234567890") =
        format_phone_international_id "081234567890") :=
  ⟨by decide, spec_C8_phone_roundtrip "081234567890" (by decide)⟩

/-! ## Lemmas about pagination -/

/-- The ceiling of `t / pp` over `ℚ` equals the integer formula
`(t + pp - 1) / pp` used by `paginate_query` (for positive `t`). -/
lemma ceil_div_eq_formula (t pp : Nat) (hpp : 0 < pp) (ht : 0 < t) :
    ⌈(t : ℚ) / (pp : ℚ)⌉₊ = (t + pp - 1) / pp := by
  obtain ⟨q, hq⟩ : ∃ q, (t + pp - 1) / pp = q := ⟨_, rfl⟩
  have hdm := Nat.div_add_mod (t + pp - 1) pp
  have hmod := Nat.mod_lt (t + pp - 1) hpp
  rw [hq] at hdm
  rw [hq]
  have hA : t ≤ pp * q := by omega
  have hle : pp * q ≤ t + pp - 1 := by omega
  have hq1 : 1 ≤ q := by
    rcases Nat.eq_zero_or_pos q with h0 | h1
    · subst h0; simp at hA; omega
    · exact h1
  have hB : pp * (q - 1) < t := by
    have hstep : pp * (q - 1) + pp = pp * q := by
      have hq' : q - 1 + 1 = q := by omega
      calc pp * (q - 1) + pp = pp * (q - 1 + 1) := by ring
        _ = pp * q := by rw [hq']
    omega
  have hppQ : (0 : ℚ) < (pp : ℚ) := by exact_mod_cast hpp
  rw [Nat.ceil_eq_iff (by omega : q ≠ 0)]
  constructor
  · rw [lt_div_iff₀ hppQ]
    have hB' : (q - 1) * pp < t := by
      rw [Nat.mul_comm] at hB; exact hB
    exact_mod_cast hB'
  · rw [div_le_iff₀ hppQ]
    have hA' : t ≤ q * pp := by
      rw [Nat.mul_comm] at hA; exact hA
    exact_mod_cast hA'

/-- `total ≤ total_pages * per_page` for the page count computed by
`paginate_query`. -/
lemma total_le_pages_mul (t pp : Nat) (hpp : 0 < pp) :
    t ≤ (if t > 0 then (t + pp - 1) / pp else 0) * pp := by
  split
  · have hdm := Nat.div_add_mod (t + pp - 1) pp
    have hmod := Nat.mod_lt (t + pp - 1) hpp
    rw [Nat.mul_comm]
    omega
  · omega

/-- **C9**: For every paginated query with `per_page ≥ 1`: `total_pages`
equals `⌈total / per_page⌉` when `total > 0` and equals `0` when
`total = 0`; and for every requested `page` strictly greater than
`total_pages`, the returned data list is empty and `has_next` is false. -/
theorem spec_C9_pagination {α : Type} (items : List α) (page per_page : Nat)
    (hpp : 1 ≤ per_page) :
    (0 < items.length →
      (paginate_query items page per_page).meta.total_pages =
        ⌈(items.length : ℚ) / (per_page : ℚ)⌉₊) ∧
    (items.length = 0 →
      (paginate_query items page per_page).meta.total_pages = 0) ∧
    ((paginate_query items page per_page).meta.total_pages < page →
      (paginate_query items page per_page).data = [] ∧
      (paginate_query items page per_page).meta.has_next = false) := by
  refine ⟨?_, ?_, ?_⟩
  · intro ht
    simp only [paginate_query, if_pos ht]
    exact (ceil_div_eq_formula items.length per_page hpp ht).symm
  · intro ht
    simp [paginate_query, ht]
  · intro hlt
    simp only [paginate_query] at hlt ⊢
    constructor
    · have hlen : items.length ≤ (page - 1) * per_page := by
        have h1 := total_le_pages_mul items.length per_page hpp
        have h2 : (if items.length > 0 then
            (items.length + per_page - 1) / per_page else 0) * per_page ≤
            (page - 1) * per_page :=
          Nat.mul_le_mul_right per_page (by omega)
        omega
      rw [List.drop_eq_nil_of_le hlen, List.take_nil]
    · simp only [Bool.and_eq_false_iff, decide_eq_false_iff_not, Nat.not_lt]
      left
      omega

/-- Witness for C9 at a five-element list, `page = 4`, `per_page = 2`. -/
theorem spec_C9_witness :
    (paginate_query [10, 20, 30, 40, 50] 4 2).meta.total_pages =
      ⌈((5 : Nat) : ℚ) / ((2 : Nat) : ℚ)⌉₊ ∧
    (paginate_query [10, 20, 30, 40, 50] 4 2).data = [] ∧
    (paginate_query [10, 20, 30, 40, 50] 4 2).meta.has_next = false := by
  have h := spec_C9_pagination [10, 20, 30, 40, 50] 4 2 (by decide)
  exact ⟨h.1 (by decide), h.2.2 (by decide)⟩

/-! ## C10: reply extraction in the background task -/

/-- **C10**: In the background reply-forwarding task, whenever the
agent-router response is a dict whose `"data"` field is absent or not
itself a dict, the extraction expression
`result.get("data").get("responses")` raises an exception before the
fallback keys `"reply"`, `"content"`, `"response"`, `"text"` are ever
consulted; the exception is caught and only logged, so no reply is
forwarded to the guest even when a fallback key holds a reply text. -/
theorem spec_C10_data_not_dict (fs : List (String × Json))
    (h : isDictVal (dictGet fs "data") = false) :
    extractReply (.obj fs) = .error .attributeError ∧
    ∀ ph, send_h2h_message_background (.ok (.obj fs)) ph = [] := by
  have hext : extractReply (.obj fs) = .error .attributeError := by
    unfold extractReply pyGetAttrGet
    cases hd : dictGet fs "data" with
    | none => simp [hd]
    | some v =>
      cases v <;> simp_all [isDictVal]
  refine ⟨hext, fun ph => ?_⟩
  unfold send_h2h_message_background
  simp [hext]

/-- Witness for C10: `"data"` is a string while `"reply"` holds a reply. -/
theorem spec_C10_witness :
    isDictVal (dictGet [("data", Json.str "x"), ("reply", Json.str "halo")]
      "data") = false ∧
    extractReply (.obj [("data", Json.str "x"), ("reply", Json.str "halo")]) =
      .error .attributeError ∧
    send_h2h_message_background
      (.ok (.obj [("data", Json.str "x"), ("reply", Json.str "halo")]))
      "081234567890" = [] := by
  have h := spec_C10_data_not_dict
    [("data", Json.str "x"), ("reply", Json.str "halo")] (by rfl)
  exact ⟨rfl, h.1, h.2 "081234567890"⟩

/-! ## Lemmas about the repository operations -/

lemma mutateSession_users (db : DB) (sid : Nat) (f : SessionRec → SessionRec) :
    (mutateSession db sid f).users = db.users := rfl

lemma mutateSession_checkins (db : DB) (sid : Nat) (f : SessionRec → SessionRec) :
    (mutateSession db sid f).checkins = db.checkins := rfl

lemma mutateSession_messages (db : DB) (sid : Nat) (f : SessionRec → SessionRec) :
    (mutateSession db sid f).messages = db.messages := rfl

lemma mutateSession_nextId (db : DB) (sid : Nat) (f : SessionRec → SessionRec) :
    (mutateSession db sid f).nextSessionId = db.nextSessionId := rfl

/-- `mutateSession` preserves the session-id column when `f` does. -/
lemma mutateSession_ids (db : DB) (sid : Nat) (f : SessionRec → SessionRec)
    (hid : ∀ s, (f s).id = s.id) :
    (mutateSession db sid f).sessions.map (·.id) = db.sessions.map (·.id) := by
  simp only [mutateSession, List.map_map]
  apply List.map_congr_left
  intro s _
  simp only [Function.comp]
  split
  · exact hid s
  · rfl

/-- `terminate_session` touches only the sessions column. -/
lemma terminate_session_messages (db : DB) (sid now : Nat) :
    (terminate_session db sid now).messages = db.messages := rfl

lemma terminate_session_nextId (db : DB) (sid now : Nat) :
    (terminate_session db sid now).nextSessionId = db.nextSessionId := rfl

lemma terminate_session_users (db : DB) (sid now : Nat) :
    (terminate_session db sid now).users = db.users := rfl

lemma terminate_session_checkins (db : DB) (sid now : Nat) :
    (terminate_session db sid now).checkins = db.checkins := rfl

/-- `termF` only touches `end`, `status`, `duration`. -/
lemma termF_id (now : Nat) (s : SessionRec) : (termF now s).id = s.id := by
  unfold termF; cases hs : s.start <;> simp [hs]

lemma termF_deleted (now : Nat) (s : SessionRec) :
    (termF now s).deleted = s.deleted := by
  unfold termF; cases hs : s.start <;> simp [hs]

lemma termF_agent_created (now : Nat) (s : SessionRec) :
    (termF now s).agent_created = s.agent_created := by
  unfold termF; cases hs : s.start <;> simp [hs]

lemma termF_status (now : Nat) (s : SessionRec) :
    (termF now s).status = .terminated := by
  unfold termF; cases hs : s.start <;> simp [hs]

lemma termF_end (now : Nat) (s : SessionRec) :
    (termF now s).«end» = some now := by
  unfold termF; cases hs : s.start <;> simp [hs]

/-- `termF` sets the duration to `end − start` when `start` is present. -/
lemma termF_duration (now st : Nat) (s : SessionRec) (h : s.start = some st) :
    (termF now s).duration = some ((now : Int) - (st : Int)) := by
  unfold termF; simp [h]

lemma terminate_session_ids (db : DB) (sid now : Nat) :
    (terminate_session db sid now).sessions.map (·.id) =
      db.sessions.map (·.id) := by
  unfold terminate_session
  exact mutateSession_ids db sid _ (termF_id now)

/-- The active-check-in lookup only reads the checkins column, which
`terminate_session` leaves unchanged. -/
lemma get_active_checkin_terminate (db : DB) (sid now uid : Nat) :
    get_active_checkin_by_guest_id (terminate_session db sid now) uid =
      get_active_checkin_by_guest_id db uid := rfl

lemma create_message_messages (db : DB) (sid : Nat) (role : MessageRole)
    (text : String) (now : Nat) :
    (create_message db sid role text now).messages =
      db.messages ++ [⟨sid, role, text⟩] := rfl

lemma create_message_users (db : DB) (sid : Nat) (role : MessageRole)
    (text : String) (now : Nat) :
    (create_message db sid role text now).users = db.users := rfl

lemma create_message_checkins (db : DB) (sid : Nat) (role : MessageRole)
    (text : String) (now : Nat) :
    (create_message db sid role text now).checkins = db.checkins := rfl

lemma create_message_nextId (db : DB) (sid : Nat) (role : MessageRole)
    (text : String) (now : Nat) :
    (create_message db sid role text now).nextSessionId = db.nextSessionId := rfl

lemma create_message_sessions (db : DB) (sid : Nat) (role : MessageRole)
    (text : String) (now : Nat) :
    (create_message db sid role text now).sessions =
      (mutateSession db sid (bumpF now)).sessions := rfl

lemma create_session_fst (db : DB) (uid crid now : Nat) :
    (create_session db uid crid now).1 =
      { id := db.nextSessionId, status := .«open», mode := .agent,
        start := some now, «end» := none, duration := none,
        session_id := some uid, checkin_room_id := some crid,
        agent_created := false, category := none, updated_at := now,
        deleted := false } := rfl

lemma create_session_snd_sessions (db : DB) (uid crid now : Nat) :
    (create_session db uid crid now).2.sessions =
      db.sessions ++ [(create_session db uid crid now).1] := rfl

lemma create_session_snd_messages (db : DB) (uid crid now : Nat) :
    (create_session db uid crid now).2.messages = db.messages := rfl

/-! ## The agent-created flag -/

/-- Some (non-deleted or not) session row with the given id has
`agent_created = true`. -/
def hasFlag (db : DB) (sid : Nat) : Bool :=
  db.sessions.any fun s => decide (s.id = sid) && s.agent_created

lemma any_mono {α : Type} {p q : α → Bool} (h : ∀ a, p a = true → q a = true)
    {l : List α} : l.any p = true → l.any q = true := by
  simp only [List.any_eq_true]
  rintro ⟨a, ha, hp⟩
  exact ⟨a, ha, h a hp⟩

lemma hasFlag_mutate_mono (db : DB) (sid : Nat) (f : SessionRec → SessionRec)
    (x : Nat) (hid : ∀ s, (f s).id = s.id)
    (hfl : ∀ s, s.agent_created = true → (f s).agent_created = true) :
    hasFlag db x = true → hasFlag (mutateSession db sid f) x = true := by
  unfold hasFlag mutateSession
  simp only [List.any_map]
  apply any_mono
  intro s hs
  simp only [Function.comp]
  split
  · simp only [Bool.and_eq_true, decide_eq_true_eq] at hs ⊢
    exact ⟨by rw [hid s, hs.1], hfl s hs.2⟩
  · exact hs

lemma hasFlag_create_message (db : DB) (sid : Nat) (role : MessageRole)
    (text : String) (now : Nat) (x : Nat) :
    hasFlag db x = true → hasFlag (create_message db sid role text now) x = true := by
  intro h
  have heq : hasFlag (create_message db sid role text now) x =
      hasFlag (mutateSession db sid (bumpF now)) x := rfl
  rw [heq]
  exact hasFlag_mutate_mono db sid _ x (fun s => rfl) (fun s hs => hs) h

lemma hasFlag_terminate (db : DB) (sid now : Nat) (x : Nat) :
    hasFlag db x = true → hasFlag (terminate_session db sid now) x = true := by
  intro h
  unfold terminate_session
  refine hasFlag_mutate_mono db sid _ x (termF_id now) ?_ h
  intro s hs
  rw [termF_agent_created]; exact hs

lemma hasFlag_update_agent_true (db : DB) (sid : Nat)
    (category : Option String) (x : Nat) :
    hasFlag db x = true →
      hasFlag (update_session_agent_status db sid true category) x = true := by
  intro h
  unfold update_session_agent_status
  exact hasFlag_mutate_mono db sid _ x (fun s => rfl) (fun s _ => rfl) h

lemma hasFlag_create_session (db : DB) (uid crid now : Nat) (x : Nat) :
    hasFlag db x = true → hasFlag (create_session db uid crid now).2 x = true := by
  intro h
  unfold hasFlag at h ⊢
  rw [create_session_snd_sessions, List.any_append, h]
  rfl

/-- One `handle_incoming_message` call never resets an `agent_created`
flag: every session row carrying the flag still carries it afterwards. -/
lemma hasFlag_handle_mono (db : DB) (p : MessagePayload) (env : Env) (x : Nat)
    (h : hasFlag db x = true) :
    hasFlag (handle_incoming_message db p env).db x = true := by
  unfold handle_incoming_message
  dsimp only
  repeat' split
  all_goals
    repeat
      first
      | exact h
      | apply hasFlag_create_message
      | apply hasFlag_terminate
      | apply hasFlag_update_agent_true
      | apply hasFlag_create_session

lemma handleMany_append (db : DB) (l1 l2 : List (MessagePayload × Env)) :
    handleMany db (l1 ++ l2) = handleMany (handleMany db l1) l2 := by
  unfold handleMany
  exact List.foldl_append ..

lemma hasFlag_handleMany (db : DB) (msgs : List (MessagePayload × Env))
    (x : Nat) (h : hasFlag db x = true) :
    hasFlag (handleMany db msgs) x = true := by
  induction msgs generalizing db with
  | nil => exact h
  | cons pe rest ih => exact ih _ (hasFlag_handle_mono db pe.1 pe.2 x h)

/-- The conversation-state projection of a session row: lifecycle status,
agent-provisioned flag and category. -/
def convState (s : SessionRec) : SessionStatus × Bool × Option String :=
  (s.status, s.agent_created, s.category)

/-- Recording a message changes no conversation state. -/
lemma convState_create_message (db : DB) (sid : Nat) (role : MessageRole)
    (text : String) (now : Nat) :
    (create_message db sid role text now).sessions.map convState =
      db.sessions.map convState := by
  rw [create_message_sessions]
  simp only [mutateSession, List.map_map]
  apply List.map_congr_left
  intro s _
  simp only [Function.comp]
  split <;> rfl

/-- **C6**: For every conversation and every sequence of handled inbound
messages, the agent-provisioned flag transitions from false to true at most
once and is never reset to false (the flag is monotone along the sequence);
in particular, sending a category digit such as `"2"` again after the flag
is already true does not trigger a second provisioning call or change the
flag or category again. -/
theorem spec_C6_agent_flag_monotone :
    (∀ (db : DB) (msgs : List (MessagePayload × Env)) (sid i j : Nat),
      i ≤ j →
      hasFlag (handleMany db (msgs.take i)) sid = true →
      hasFlag (handleMany db (msgs.take j)) sid = true) ∧
    (∀ (db : DB) (p : MessagePayload) (env : Env) (u : UserRec)
      (s : SessionRec),
      p.fromMe = false →
      get_user_by_phone db
        (format_phone_local_id (extract_phone_from_chat_id p.from_)) = some u →
      get_active_session_by_user_id db u.id = some s →
      env.now - s.updated_at ≤ 1800 →
      s.agent_created = true →
      pyStrip (p.body.getD "") = "2" →
      (handle_incoming_message db p env).createAgentCalls = [] ∧
      (handle_incoming_message db p env).db.sessions.map convState =
        db.sessions.map convState) := by
  constructor
  · intro db msgs sid i j hij hflag
    have hsplit : msgs.take j = msgs.take i ++ (msgs.take j).drop i := by
      conv_lhs => rw [← List.take_append_drop i (msgs.take j)]
      rw [List.take_take, Nat.min_eq_left hij]
    rw [hsplit, handleMany_append]
    exact hasFlag_handleMany _ _ sid hflag
  · intro db p env u s hMe hU hS hFresh hFlag hBody
    have hExp : decide (1800 < env.now - s.updated_at) = false :=
      decide_eq_false (Nat.not_lt.mpr hFresh)
    unfold handle_incoming_message
    simp only [hMe, hU, hS, hExp, hBody, hFlag, Bool.false_eq_true, if_false,
      Option.isNone_some, Bool.or_false, Bool.false_or, Bool.not_true]
    rw [if_neg (by decide : ¬("2" : String) = "/end")]
    cases hAvail : env.agentAvailable <;>
      simp [hAvail, convState_create_message]

/-- Witness data for C6: a guest with an open conversation whose agent flag
is already true, sending `"2"` again. -/
def c6user : UserRec := ⟨1, "Adi", some "081234567890", false⟩

def c6sess : SessionRec :=
  ⟨10, .«open», .agent, some 100, none, none, some 1, some 7, true,
    some "room_service", 100, false⟩

def c6db : DB := ⟨[c6user], [c6sess], [], [], 11⟩

def c6p : MessagePayload := ⟨false, "6281234567890@c.us", some "2"⟩

def c6env : Env := ⟨200, true, true⟩

/-- Witness for C6: both parts applied at the concrete scenario. -/
theorem spec_C6_witness :
    (hasFlag (handleMany c6db ([(c6p, c6env)].take 0)) 10 = true ∧
      hasFlag (handleMany c6db ([(c6p, c6env)].take 1)) 10 = true) ∧
    ((handle_incoming_message c6db c6p c6env).createAgentCalls = [] ∧
      (handle_incoming_message c6db c6p c6env).db.sessions.map convState =
        c6db.sessions.map convState) :=
  ⟨⟨by decide,
    spec_C6_agent_flag_monotone.1 c6db [(c6p, c6env)] 10 0 1 (by decide)
      (by decide)⟩,
    spec_C6_agent_flag_monotone.2 c6db c6p c6env c6user c6sess rfl (by decide)
      (by decide) (by decide) rfl (by decide)⟩

/-! ## C7: silent drop without an active room-stay -/

/-- **C7**: For every inbound message from a recognized guest who has no
open (non-expired) conversation and no active room-stay, the handler
returns with no new conversation created, no message persisted and no
outbound message sent (no error is raised on this path: it performs no
external call, and database statements are assumed not to fail). -/
theorem spec_C7_silent_drop (db : DB) (p : MessagePayload) (env : Env)
    (u : UserRec)
    (hMe : p.fromMe = false)
    (hU : get_user_by_phone db
      (format_phone_local_id (extract_phone_from_chat_id p.from_)) = some u)
    (hS : ∀ s, get_active_session_by_user_id db u.id = some s →
      1800 < env.now - s.updated_at)
    (hC : get_active_checkin_by_guest_id db u.id = none) :
    (handle_incoming_message db p env).db.messages = db.messages ∧
    (handle_incoming_message db p env).wahaSent = [] ∧
    (handle_incoming_message db p env).typingSent = [] ∧
    (handle_incoming_message db p env).createAgentCalls = [] ∧
    (handle_incoming_message db p env).bgTasks = [] ∧
    (handle_incoming_message db p env).db.sessions.map (·.id) =
      db.sessions.map (·.id) ∧
    (handle_incoming_message db p env).db.nextSessionId = db.nextSessionId ∧
    (handle_incoming_message db p env).db.users = db.users ∧
    (handle_incoming_message db p env).db.checkins = db.checkins := by
  unfold handle_incoming_message
  cases hSess : get_active_session_by_user_id db u.id with
  | none =>
    simp only [hMe, hU, hSess, Bool.false_eq_true, if_false,
      Option.isNone_none, Bool.true_or, if_true, hC]
    exact ⟨trivial, trivial, trivial, trivial, trivial, trivial, trivial,
      trivial, trivial⟩
  | some s =>
    have hExp : decide (1800 < env.now - s.updated_at) = true :=
      decide_eq_true (hS s hSess)
    simp only [hMe, hU, hSess, hExp, Bool.false_eq_true, if_false,
      Option.isNone_some, Bool.false_or, if_true,
      get_active_checkin_terminate, hC]
    refine ⟨?_, ?_, ?_, ?_, ?_, ?_, ?_, ?_, ?_⟩ <;>
      first
        | trivial
        | exact terminate_session_messages ..
        | exact terminate_session_ids ..
        | exact terminate_session_nextId ..
        | exact terminate_session_users ..
        | exact terminate_session_checkins ..

/-- Witness data for C7: a recognized guest with no session and no active
check-in room. -/
def c7user : UserRec := ⟨1, "Adi", some "081234567890", false⟩

def c7db : DB := ⟨[c7user], [], [], [], 5⟩

def c7p : MessagePayload := ⟨false, "6281234567890@c.us", some "Hi"⟩

/-- Witness for C7 at the concrete scenario. -/
theorem spec_C7_witness :
    (handle_incoming_message c7db c7p ⟨100, true, true⟩).db.messages =
      c7db.messages ∧
    (handle_incoming_message c7db c7p ⟨100, true, true⟩).wahaSent = [] ∧
    (handle_incoming_message c7db c7p ⟨100, true, true⟩).db.sessions.map
      (·.id) = c7db.sessions.map (·.id) :=
  have h := spec_C7_silent_drop c7db c7p ⟨100, true, true⟩ c7user rfl
    (by decide)
    (fun s hs => by simp [get_active_session_by_user_id, c7db] at hs)
    (by decide)
  ⟨h.1, h.2.1, h.2.2.2.2.2.1⟩

/-! ## C5: first inbound message of a fresh conversation -/

/-- **C5**: For every guest with no prior open conversation and an active
room-stay, the first inbound message persists exactly one system welcome
message and zero replies to the triggering message itself; the triggering
inbound message is persisted (after the welcome) but not otherwise
processed — no category handling, no relay, no background task. -/
theorem spec_C5_first_message (db : DB) (p : MessagePayload) (env : Env)
    (u : UserRec) (c : CheckinRec)
    (hMe : p.fromMe = false)
    (hU : get_user_by_phone db
      (format_phone_local_id (extract_phone_from_chat_id p.from_)) = some u)
    (hS : get_active_session_by_user_id db u.id = none)
    (hC : get_active_checkin_by_guest_id db u.id = some c) :
    (handle_incoming_message db p env).db.messages =
      db.messages ++
        [⟨db.nextSessionId, .System, welcomeText u.name⟩,
         ⟨db.nextSessionId, .User, p.body.getD ""⟩] ∧
    (handle_incoming_message db p env).wahaSent =
      [(format_phone_international_id
          (format_phone_local_id (extract_phone_from_chat_id p.from_)),
        welcomeText u.name)] ∧
    (handle_incoming_message db p env).typingSent = [] ∧
    (handle_incoming_message db p env).createAgentCalls = [] ∧
    (handle_incoming_message db p env).bgTasks = [] := by
  unfold handle_incoming_message
  simp only [hMe, hU, hS, Bool.false_eq_true, if_false, Option.isNone_none,
    Bool.true_or, if_true, hC]
  refine ⟨?_, ?_, ?_, ?_, ?_⟩
  case _ =>
    rw [create_message_messages, create_message_messages,
      create_session_snd_messages, create_session_fst]
    simp
  all_goals trivial

/-- Witness data for C5: a guest with an active check-in and no session. -/
def c5user : UserRec := ⟨1, "Adi", some "081234567890", false⟩

def c5checkin : CheckinRec := ⟨7, some 1, "active", 10, false⟩

def c5db : DB := ⟨[c5user], [], [c5checkin], [], 3⟩

def c5p : MessagePayload := ⟨false, "6281234567890@c.us", some "Hi"⟩

/-- Witness for C5 at the concrete scenario. -/
theorem spec_C5_witness :
    (handle_incoming_message c5db c5p ⟨100, true, true⟩).db.messages =
      c5db.messages ++
        [⟨3, .System, welcomeText "Adi"⟩, ⟨3, .User, "Hi"⟩] ∧
    (handle_incoming_message c5db c5p ⟨100, true, true⟩).wahaSent =
      [("6281234567890", welcomeText "Adi")] ∧
    (handle_incoming_message c5db c5p ⟨100, true, true⟩).bgTasks = [] :=
  have h := spec_C5_first_message c5db c5p ⟨100, true, true⟩ c5user c5checkin
    rfl (by decide) (by decide) (by decide)
  ⟨h.1, by rw [h.2.1]; decide, h.2.2.2.2⟩

/-! ## C1: 30-minute expiry -/

lemma mutateSession_sessions (db : DB) (sid : Nat) (f : SessionRec → SessionRec) :
    (mutateSession db sid f).sessions =
      db.sessions.map fun s =>
        if decide (s.id = sid) && !s.deleted then f s else s := rfl

lemma terminate_session_sessions (db : DB) (sid now : Nat) :
    (terminate_session db sid now).sessions =
      db.sessions.map fun s =>
        if decide (s.id = sid) && !s.deleted then termF now s else s := rfl

/-- **C1** (amended): For every guest whose open conversation has
`updated_at` more than 30 minutes before message-arrival time *and who has
an active room-stay*, handling the next inbound message terminates that
conversation (setting its end and duration) and creates a new conversation
in the awaiting-category state, regardless of the message's content
(without an active room-stay the stale conversation is still terminated,
but no new conversation is created — see the counterexample). -/
theorem spec_C1_expiry (db : DB) (p : MessagePayload) (env : Env)
    (u : UserRec) (s : SessionRec) (st : Nat) (c : CheckinRec)
    (hMe : p.fromMe = false)
    (hU : get_user_by_phone db
      (format_phone_local_id (extract_phone_from_chat_id p.from_)) = some u)
    (hS : get_active_session_by_user_id db u.id = some s)
    (hStale : 1800 < env.now - s.updated_at)
    (hStart : s.start = some st)
    (hC : get_active_checkin_by_guest_id db u.id = some c)
    (hLt : ∀ t ∈ db.sessions, t.id < db.nextSessionId) :
    (∃ s' ∈ (handle_incoming_message db p env).db.sessions,
      s'.id = s.id ∧ s'.deleted = false ∧ s'.status = .terminated ∧
      s'.«end» = some env.now ∧
      s'.duration = some ((env.now : Int) - (st : Int))) ∧
    (∀ s' ∈ (handle_incoming_message db p env).db.sessions,
      s'.id = s.id → s'.deleted = false → s'.status = .terminated) ∧
    (∃ n ∈ (handle_incoming_message db p env).db.sessions,
      n.id = db.nextSessionId ∧ n.status = .«open» ∧ n.agent_created = false ∧
      n.session_id = some u.id ∧ n.category = none) := by
  have hmem := List.mem_of_find?_eq_some hS
  have hfind := List.find?_some hS
  simp only [Bool.and_eq_true, decide_eq_true_eq, Bool.not_eq_true'] at hfind
  have hsdel : s.deleted = false := hfind.2
  have hExp : decide (1800 < env.now - s.updated_at) = true :=
    decide_eq_true hStale
  unfold handle_incoming_message
  simp only [hMe, hU, hS, hExp, Bool.false_eq_true, if_false,
    Option.isNone_some, Bool.false_or, Bool.or_true, if_true,
    get_active_checkin_terminate, hC]
  rw [create_message_sessions, mutateSession_sessions, create_message_sessions,
    mutateSession_sessions, create_session_snd_sessions,
    terminate_session_sessions]
  set newS := (create_session (terminate_session db s.id env.now) u.id c.id
    env.now).1 with hnewS
  set tIf := fun t : SessionRec =>
    if decide (t.id = s.id) && !t.deleted then termF env.now t else t
    with htIf
  set bIf := fun t : SessionRec =>
    if decide (t.id = newS.id) && !t.deleted then bumpF env.now t else t
    with hbIf
  have hnid : newS.id = db.nextSessionId := by
    rw [hnewS, create_session_fst]
    exact terminate_session_nextId db s.id env.now
  have htIf_id : ∀ t, (tIf t).id = t.id := by
    intro t
    rw [htIf]
    dsimp only
    split
    · exact termF_id env.now t
    · rfl
  have htIf_del : ∀ t, (tIf t).deleted = t.deleted := by
    intro t
    rw [htIf]
    dsimp only
    split
    · exact termF_deleted env.now t
    · rfl
  have hcollapse : ((db.sessions.map tIf ++ [newS]).map bIf).map bIf =
      db.sessions.map tIf ++ [newS] := by
    rw [List.map_append, List.map_append]
    congr 1
    · rw [List.map_map, List.map_map]
      apply List.map_congr_left
      intro t ht
      have hne : (decide ((tIf t).id = newS.id) && !(tIf t).deleted) = false := by
        have : (tIf t).id ≠ newS.id := by
          rw [htIf_id, hnid]
          exact Nat.ne_of_lt (hLt t ht)
        simp [this]
      simp only [Function.comp, hbIf]
      rw [if_neg (by simp [hne]), if_neg (by simp [hne])]
    · have hb : bIf newS = newS := by
        rw [hbIf]
        dsimp only
        have hcond : (decide (newS.id = newS.id) && !newS.deleted) = true := by
          have : newS.deleted = false := by rw [hnewS, create_session_fst]
          simp [this]
        rw [if_pos hcond, hnewS, create_session_fst]
        rfl
      simp [hb]
  rw [hcollapse]
  refine ⟨⟨termF env.now s, ?_, ?_, ?_, ?_, ?_, ?_⟩, ?_, ⟨newS, ?_, ?_, ?_, ?_, ?_⟩⟩
  · refine List.mem_append_left _ (List.mem_map.2 ⟨s, hmem, ?_⟩)
    rw [htIf]
    dsimp only
    rw [if_pos (by simp [hsdel])]
  · exact termF_id env.now s
  · rw [termF_deleted]; exact hsdel
  · exact termF_status env.now s
  · exact termF_end env.now s
  · exact termF_duration env.now st s hStart
  · intro s' hmem' hid' hdel'
    rcases List.mem_append.1 hmem' with hL | hR
    · obtain ⟨t, ht, rfl⟩ := List.mem_map.1 hL
      rw [htIf] at hid' hdel' ⊢
      dsimp only at hid' hdel' ⊢
      by_cases hc : (decide (t.id = s.id) && !t.deleted) = true
      · rw [if_pos hc]
        exact termF_status env.now t
      · rw [if_neg hc] at hid' hdel' ⊢
        simp only [Bool.and_eq_true, decide_eq_true_eq,
          Bool.not_eq_true'] at hc
        exact absurd ⟨hid', hdel'⟩ hc
    · rw [List.mem_singleton.1 hR] at hid'
      rw [hnid] at hid'
      exact absurd (hid' ▸ hLt s hmem) (by omega)
  · exact List.mem_append_right _ (List.mem_singleton.2 rfl)
  · exact hnid
  · rw [hnewS, create_session_fst]
  · rw [hnewS, create_session_fst]
  · rw [hnewS, create_session_fst]
    exact ⟨rfl, rfl⟩

/-- Witness data for C1: a stale open conversation and an active check-in. -/
def c1user : UserRec := ⟨1, "Adi", some "081234567890", false⟩

def c1sess : SessionRec :=
  ⟨10, .«open», .agent, some 100, none, none, some 1, some 7, false, none,
    100, false⟩

def c1checkin : CheckinRec := ⟨7, some 1, "active", 10, false⟩

def c1db : DB := ⟨[c1user], [c1sess], [c1checkin], [], 11⟩

def c1p : MessagePayload := ⟨false, "6281234567890@c.us", some "Hi"⟩

def c1env : Env := ⟨2000, true, true⟩

/-- Witness for C1 at the concrete stale conversation. -/
theorem spec_C1_witness :
    (∃ s' ∈ (handle_incoming_message c1db c1p c1env).db.sessions,
      s'.id = c1sess.id ∧ s'.deleted = false ∧ s'.status = .terminated ∧
      s'.«end» = some c1env.now ∧
      s'.duration = some ((c1env.now : Int) - ((100 : Nat) : Int))) ∧
    (∀ s' ∈ (handle_incoming_message c1db c1p c1env).db.sessions,
      s'.id = c1sess.id → s'.deleted = false → s'.status = .terminated) ∧
    (∃ n ∈ (handle_incoming_message c1db c1p c1env).db.sessions,
      n.id = c1db.nextSessionId ∧ n.status = .«open» ∧
      n.agent_created = false ∧ n.session_id = some c1user.id ∧
      n.category = none) :=
  spec_C1_expiry c1db c1p c1env c1user c1sess 100 c1checkin rfl (by decide)
    (by decide) (by decide) rfl (by decide) (by decide)

/-- Counterexample for C1 as stated: the same stale conversation but no
active room-stay. Handling the next inbound message terminates the old
conversation, yet no new conversation is created (the session list keeps
the single id 10, the id counter does not move, and no open session
remains), contradicting "creates a new conversation in the
awaiting-category state" for every such guest. -/
theorem spec_C1_counterexample :
    (1800 < 2000 - (100 : Nat)) ∧
    (handle_incoming_message ⟨[⟨1, "Adi", some "081234567890", false⟩],
        [⟨10, .«open», .agent, some 100, none, none, some 1, some 7, false,
          none, 100, false⟩], [], [], 11⟩
      ⟨false, "6281234567890@c.us", some "Hi"⟩
      ⟨2000, true, true⟩).db.sessions.map (·.id) = [10] ∧
    (∀ s' ∈ (handle_incoming_message ⟨[⟨1, "Adi", some "081234567890", false⟩],
        [⟨10, .«open», .agent, some 100, none, none, some 1, some 7, false,
          none, 100, false⟩], [], [], 11⟩
      ⟨false, "6281234567890@c.us", some "Hi"⟩
      ⟨2000, true, true⟩).db.sessions, s'.status = .terminated) ∧
    (handle_incoming_message ⟨[⟨1, "Adi", some "081234567890", false⟩],
        [⟨10, .«open», .agent, some 100, none, none, some 1, some 7, false,
          none, 100, false⟩], [], [], 11⟩
      ⟨false, "6281234567890@c.us", some "Hi"⟩
      ⟨2000, true, true⟩).db.nextSessionId = 11 := by
  refine ⟨by decide, by decide, ?_, by decide⟩
  decide

/-! ## C4: explicit termination with `/end` -/

lemma bumpF_id (now : Nat) (s : SessionRec) : (bumpF now s).id = s.id := rfl

lemma bumpF_deleted (now : Nat) (s : SessionRec) :
    (bumpF now s).deleted = s.deleted := rfl

lemma bumpF_start (now : Nat) (s : SessionRec) :
    (bumpF now s).start = s.start := rfl

/-- The active-session lookup filters on `status == open`, so it can never
return a terminated session. -/
lemma active_lookup_not_terminated (db' : DB) (uid : Nat) (t : SessionRec)
    (h : get_active_session_by_user_id db' uid = some t) :
    t.status ≠ .terminated := by
  have hp := List.find?_some h
  simp only [Bool.and_eq_true, decide_eq_true_eq, Bool.not_eq_true'] at hp
  rw [hp.1.2]
  decide

/-- **C4**: For every conversation that is still active (open and not
expired), an inbound body exactly equal to `/end` after trimming
(case-sensitive) terminates the conversation: status becomes terminated,
`end` is set to the arrival time and `duration` equals `end − start` in
whole seconds; and `/end` on an already-terminated conversation is
unreachable because the active-session lookup never returns a terminated
session. -/
theorem spec_C4_end_command (db : DB) (p : MessagePayload) (env : Env)
    (u : UserRec) (s : SessionRec) (st : Nat)
    (hMe : p.fromMe = false)
    (hU : get_user_by_phone db
      (format_phone_local_id (extract_phone_from_chat_id p.from_)) = some u)
    (hS : get_active_session_by_user_id db u.id = some s)
    (hFresh : env.now - s.updated_at ≤ 1800)
    (hBody : pyStrip (p.body.getD "") = "/end")
    (hStart : s.start = some st) :
    (∃ s' ∈ (handle_incoming_message db p env).db.sessions,
      s'.id = s.id ∧ s'.deleted = false ∧ s'.status = .terminated ∧
      s'.«end» = some env.now ∧
      s'.duration = some ((env.now : Int) - (st : Int))) ∧
    (∀ s' ∈ (handle_incoming_message db p env).db.sessions,
      s'.id = s.id → s'.deleted = false → s'.status = .terminated) ∧
    (∀ (db' : DB) (uid : Nat) (t : SessionRec),
      get_active_session_by_user_id db' uid = some t →
      t.status ≠ .terminated) := by
  have hmem := List.mem_of_find?_eq_some hS
  have hfind := List.find?_some hS
  simp only [Bool.and_eq_true, decide_eq_true_eq, Bool.not_eq_true'] at hfind
  have hsdel : s.deleted = false := hfind.2
  have hExp : decide (1800 < env.now - s.updated_at) = false :=
    decide_eq_false (Nat.not_lt.mpr hFresh)
  unfold handle_incoming_message
  simp only [hMe, hU, hS, hExp, hBody, Bool.false_eq_true, if_false,
    Option.isNone_some, Bool.false_or, Bool.or_false]
  rw [if_pos trivial]
  rw [terminate_session_sessions, create_message_sessions,
    mutateSession_sessions, List.map_map]
  have hcomp : ∀ t : SessionRec,
      ((fun r : SessionRec =>
          if decide (r.id = s.id) && !r.deleted then termF env.now r else r) ∘
        fun r : SessionRec =>
          if decide (r.id = s.id) && !r.deleted then bumpF env.now r else r) t =
      (if decide (t.id = s.id) && !t.deleted
        then termF env.now (bumpF env.now t) else t) := by
    intro t
    simp only [Function.comp]
    by_cases hc : (decide (t.id = s.id) && !t.deleted) = true
    · simp [hc, bumpF_id, bumpF_deleted]
    · rw [Bool.not_eq_true] at hc
      simp [hc]
  rw [List.map_congr_left fun t _ => hcomp t]
  refine ⟨⟨termF env.now (bumpF env.now s), ?_, ?_, ?_, ?_, ?_, ?_⟩, ?_, ?_⟩
  · refine List.mem_map.2 ⟨s, hmem, ?_⟩
    rw [if_pos (by simp [hsdel])]
  · rw [termF_id, bumpF_id]
  · rw [termF_deleted, bumpF_deleted]; exact hsdel
  · exact termF_status ..
  · exact termF_end ..
  · exact termF_duration env.now st _ (by rw [bumpF_start]; exact hStart)
  · intro s' hmem' hid' hdel'
    obtain ⟨t, ht, rfl⟩ := List.mem_map.1 hmem'
    by_cases hc : (decide (t.id = s.id) && !t.deleted) = true
    · rw [if_pos hc]
      exact termF_status ..
    · rw [if_neg hc] at hid' hdel' ⊢
      simp only [Bool.and_eq_true, decide_eq_true_eq, Bool.not_eq_true'] at hc
      exact absurd ⟨hid', hdel'⟩ hc
  · exact active_lookup_not_terminated

/-- Witness data for C4: an active conversation receiving `" /end "`. -/
def c4user : UserRec := ⟨1, "Adi", some "081234567890", false⟩

def c4sess : SessionRec :=
  ⟨10, .«open», .agent, some 100, none, none, some 1, some 7, true,
    some "room_service", 400, false⟩

def c4db : DB := ⟨[c4user], [c4sess], [], [], 11⟩

def c4p : MessagePayload := ⟨false, "6281234567890@c.us", some " /end "⟩

def c4env : Env := ⟨500, true, true⟩

/-- Witness for C4 at the concrete `/end` message. -/
theorem spec_C4_witness :
    (∃ s' ∈ (handle_incoming_message c4db c4p c4env).db.sessions,
      s'.id = c4sess.id ∧ s'.deleted = false ∧ s'.status = .terminated ∧
      s'.«end» = some c4env.now ∧
      s'.duration = some ((c4env.now : Int) - ((100 : Nat) : Int))) ∧
    (∀ s' ∈ (handle_incoming_message c4db c4p c4env).db.sessions,
      s'.id = c4sess.id → s'.deleted = false → s'.status = .terminated) :=
  have h := spec_C4_end_command c4db c4p c4env c4user c4sess 100 rfl
    (by decide) (by decide) (by decide) (by decide) rfl
  ⟨h.1, h.2.1⟩

/-! ## C3: category selection while awaiting category -/

lemma agentF_id (b : Bool) (cat : Option String) (s : SessionRec) :
    (agentF b cat s).id = s.id := rfl

lemma agentF_deleted (b : Bool) (cat : Option String) (s : SessionRec) :
    (agentF b cat s).deleted = s.deleted := rfl

lemma update_session_agent_status_messages (db : DB) (sid : Nat) (b : Bool)
    (cat : Option String) :
    (update_session_agent_status db sid b cat).messages = db.messages := rfl

lemma update_session_agent_status_sessions (db : DB) (sid : Nat) (b : Bool)
    (cat : Option String) :
    (update_session_agent_status db sid b cat).sessions =
      db.sessions.map fun s =>
        if decide (s.id = sid) && !s.deleted then agentF b cat s else s := rfl

/-- **C3** (amended): For every conversation awaiting category selection
(agent not yet provisioned), an inbound message whose trimmed body is
exactly `"1"`, `"2"`, or `"3"` maps respectively to category
`general_information`, `room_service`, or `customer_service`; on
provisioning success the agent-created flag and category are persisted and
a confirmation is relayed; on provisioning failure an error message is
relayed and the conversation remains awaiting category with the flag still
false; any other inbound body *except `/end`* produces a reminder message
and no conversation-state change (`/end` instead terminates the
conversation — see the counterexample). -/
theorem spec_C3_category_selection (db : DB) (p : MessagePayload) (env : Env)
    (u : UserRec) (s : SessionRec)
    (hMe : p.fromMe = false)
    (hU : get_user_by_phone db
      (format_phone_local_id (extract_phone_from_chat_id p.from_)) = some u)
    (hS : get_active_session_by_user_id db u.id = some s)
    (hFresh : env.now - s.updated_at ≤ 1800)
    (hFlag : s.agent_created = false) :
    (_parse_category_command "1" = some "general_information" ∧
      _parse_category_command "2" = some "room_service" ∧
      _parse_category_command "3" = some "customer_service") ∧
    (∀ cat, _parse_category_command (pyStrip (p.body.getD "")) = some cat →
      (env.createAgentOk = true →
        (handle_incoming_message db p env).createAgentCalls = [(s.id, cat)] ∧
        (∀ s' ∈ (handle_incoming_message db p env).db.sessions,
          s'.id = s.id → s'.deleted = false →
          s'.agent_created = true ∧ s'.category = some cat) ∧
        (handle_incoming_message db p env).wahaSent =
          [(format_phone_international_id
              (format_phone_local_id (extract_phone_from_chat_id p.from_)),
            confirmationText cat)] ∧
        (handle_incoming_message db p env).db.messages =
          db.messages ++ [⟨s.id, .User, p.body.getD ""⟩,
            ⟨s.id, .System, confirmationText cat⟩]) ∧
      (env.createAgentOk = false →
        (handle_incoming_message db p env).createAgentCalls = [(s.id, cat)] ∧
        (handle_incoming_message db p env).db.sessions.map convState =
          db.sessions.map convState ∧
        (handle_incoming_message db p env).wahaSent =
          [(format_phone_international_id
              (format_phone_local_id (extract_phone_from_chat_id p.from_)),
            agentErrorText)] ∧
        (handle_incoming_message db p env).db.messages =
          db.messages ++ [⟨s.id, .User, p.body.getD ""⟩])) ∧
    (pyStrip (p.body.getD "") ≠ "/end" →
      _parse_category_command (pyStrip (p.body.getD "")) = none →
      (handle_incoming_message db p env).wahaSent =
        [(format_phone_international_id
            (format_phone_local_id (extract_phone_from_chat_id p.from_)),
          reminderText)] ∧
      (handle_incoming_message db p env).createAgentCalls = [] ∧
      (handle_incoming_message db p env).db.sessions.map convState =
        db.sessions.map convState ∧
      (handle_incoming_message db p env).db.messages =
        db.messages ++ [⟨s.id, .User, p.body.getD ""⟩]) := by
  have hmem := List.mem_of_find?_eq_some hS
  have hfind := List.find?_some hS
  simp only [Bool.and_eq_true, decide_eq_true_eq, Bool.not_eq_true'] at hfind
  have hsdel : s.deleted = false := hfind.2
  have hExp : decide (1800 < env.now - s.updated_at) = false :=
    decide_eq_false (Nat.not_lt.mpr hFresh)
  refine ⟨⟨by decide, by decide, by decide⟩, ?_, ?_⟩
  · intro cat hParse
    have hne : pyStrip (p.body.getD "") ≠ "/end" := by
      intro he
      rw [he] at hParse
      rw [(by decide : _parse_category_command "/end" =
        (none : Option String))] at hParse
      cases hParse
    have hcatne : ¬cat = "" := by
      unfold _parse_category_command at hParse
      dsimp only at hParse
      split_ifs at hParse <;>
        first
          | (injection hParse with h; subst h; decide)
          | cases hParse
    unfold handle_incoming_message
    simp only [hMe, hU, hS, hExp, Bool.false_eq_true, if_false,
      Option.isNone_some, Bool.false_or, Bool.or_false, hFlag,
      Bool.not_false, eq_self_iff_true, if_true, hParse]
    rw [if_neg hne]
    constructor
    · intro hOk
      simp only [hOk, eq_self_iff_true, if_true]
      refine ⟨trivial, ?_, trivial, ?_⟩
      · rw [create_message_sessions, mutateSession_sessions,
          update_session_agent_status_sessions, create_message_sessions,
          mutateSession_sessions, List.map_map, List.map_map]
        intro s' hmem' hid' hdel'
        obtain ⟨t, ht, rfl⟩ := List.mem_map.1 hmem'
        simp only [Function.comp] at hid' hdel' ⊢
        by_cases hc : (decide (t.id = s.id) && !t.deleted) = true
        · simp only [hc, if_true, bumpF_id, bumpF_deleted, agentF_id,
            agentF_deleted, eq_self_iff_true] at hid' hdel' ⊢
          constructor
          · rfl
          · show (bumpF env.now (agentF true (some cat)
              (bumpF env.now t))).category = some cat
            simp [bumpF, agentF, hcatne]
        · rw [Bool.not_eq_true] at hc
          simp only [hc, Bool.false_eq_true, if_false] at hid' hdel' ⊢
          exact absurd (by simp [hid', hdel'] : (decide (t.id = s.id) &&
            !t.deleted) = true) (by simp [hc])
      · rw [create_message_messages, update_session_agent_status_messages,
          create_message_messages]
        simp
    · intro hOk
      simp only [hOk, Bool.false_eq_true, if_false]
      exact ⟨trivial, convState_create_message .., trivial,
        create_message_messages ..⟩
  · intro hne hNone
    unfold handle_incoming_message
    simp only [hMe, hU, hS, hExp, Bool.false_eq_true, if_false,
      Option.isNone_some, Bool.false_or, Bool.or_false, hFlag,
      Bool.not_false, eq_self_iff_true, if_true, hNone]
    rw [if_neg hne]
    exact ⟨by first | trivial | rfl, by first | trivial | rfl,
      convState_create_message .., create_message_messages ..⟩

/-- Witness data for C3: a fresh conversation awaiting category, guest
sends `"2"`. -/
def c3user : UserRec := ⟨1, "Adi", some "081234567890", false⟩

def c3sess : SessionRec :=
  ⟨10, .«open», .agent, some 100, none, none, some 1, some 7, false, none,
    100, false⟩

def c3db : DB := ⟨[c3user], [c3sess], [], [], 11⟩

def c3p : MessagePayload := ⟨false, "6281234567890@c.us", some "2"⟩

def c3env : Env := ⟨200, true, true⟩

/-- Witness for C3 at the concrete category command `"2"`. -/
theorem spec_C3_witness :
    _parse_category_command "2" = some "room_service" ∧
    (handle_incoming_message c3db c3p c3env).createAgentCalls =
      [(10, "room_service")] ∧
    (∀ s' ∈ (handle_incoming_message c3db c3p c3env).db.sessions,
      s'.id = 10 → s'.deleted = false →
      s'.agent_created = true ∧ s'.category = some "room_service") ∧
    (handle_incoming_message c3db c3p c3env).wahaSent =
      [("6281234567890", confirmationText "room_service")] :=
  have h := (spec_C3_category_selection c3db c3p c3env c3user c3sess rfl
    (by decide) (by decide) (by decide) rfl).2.1 "room_service" (by decide)
  have hok := h.1 rfl
  ⟨by decide, hok.1, hok.2.1, by rw [hok.2.2.1]; decide⟩

/-- Counterexample for C3 as stated: while awaiting category ("agent not
yet provisioned"), the inbound body `/end` is "any other inbound body", yet
it does not produce a reminder and does change state: the conversation is
terminated and the goodbye message is relayed. -/
theorem spec_C3_counterexample :
    (handle_incoming_message ⟨[⟨1, "Adi", some "081234567890", false⟩],
        [⟨10, .«open», .agent, some 100, none, none, some 1, some 7, false,
          none, 100, false⟩], [], [], 11⟩
      ⟨false, "6281234567890@c.us", some "/end"⟩
      ⟨200, true, true⟩).wahaSent = [("6281234567890", goodbyeText)] ∧
    goodbyeText ≠ reminderText ∧
    (∀ s' ∈ (handle_incoming_message ⟨[⟨1, "Adi", some "081234567890", false⟩],
        [⟨10, .«open», .agent, some 100, none, none, some 1, some 7, false,
          none, 100, false⟩], [], [], 11⟩
      ⟨false, "6281234567890@c.us", some "/end"⟩
      ⟨200, true, true⟩).db.sessions, s'.status = .terminated) := by
  refine ⟨by decide, by decide, ?_⟩
  decide

/-! ## C2: the operator-initiated send contract -/

/-- **C2** (amended): For every call to `send_message(conversationId,
text)`: it fails with NotFound when the conversation or its guest does not
exist; it is a no-op returning success with no side effects when the
conversation's status is already terminated (this check precedes the
missing-phone check); it fails with BadRequest when the conversation is not
terminated and the guest has no phone number on file; otherwise it persists
the text as a System message only when the conversation's mode is agent,
and forwards the text through the messaging gateway. -/
theorem spec_C2_send_contract (db : DB) (sid : Nat) (text : String)
    (now : Nat) (wahaOk : Bool) :
    (get_session_with_user db sid = none →
      send_message db sid text now wahaOk = ⟨db, [], .notFound⟩) ∧
    (∀ s, get_session_with_user db sid = some (s, none) →
      send_message db sid text now wahaOk = ⟨db, [], .notFound⟩) ∧
    (∀ s u, get_session_with_user db sid = some (s, some u) →
      (s.status = .terminated →
        send_message db sid text now wahaOk = ⟨db, [], .success⟩) ∧
      (s.status ≠ .terminated → u.mobile_phone.getD "" = "" →
        send_message db sid text now wahaOk = ⟨db, [], .badRequest⟩) ∧
      (s.status ≠ .terminated → u.mobile_phone.getD "" ≠ "" → wahaOk = true →
        (send_message db sid text now wahaOk).outcome = .success ∧
        (send_message db sid text now wahaOk).wahaSent =
          [(format_phone_international_id (u.mobile_phone.getD ""), text)] ∧
        (send_message db sid text now wahaOk).db.messages =
          (if s.mode = .agent then db.messages ++ [⟨s.id, .System, text⟩]
           else db.messages)) ∧
      (s.status ≠ .terminated → u.mobile_phone.getD "" ≠ "" →
        wahaOk = false →
        (send_message db sid text now wahaOk).db = db ∧
        (send_message db sid text now wahaOk).outcome = .internalError)) := by
  refine ⟨?_, ?_, ?_⟩
  · intro h
    unfold send_message
    rw [h]
  · intro s h
    unfold send_message
    rw [h]
  · intro s u h
    refine ⟨?_, ?_, ?_, ?_⟩
    · intro ht
      unfold send_message
      rw [h]
      dsimp only
      rw [if_pos ht]
    · intro ht hp
      unfold send_message
      rw [h]
      dsimp only
      rw [if_neg ht, if_pos hp]
    · intro ht hp hwa
      unfold send_message
      rw [h]
      dsimp only
      rw [if_neg ht, if_neg hp, hwa, if_pos rfl]
      refine ⟨rfl, rfl, ?_⟩
      by_cases hm : s.mode = .agent
      · rw [if_pos hm, if_pos hm, create_message_messages]
      · rw [if_neg hm, if_neg hm]
    · intro ht hp hwa
      unfold send_message
      rw [h]
      dsimp only
      rw [if_neg ht, if_neg hp, hwa]
      exact ⟨rfl, rfl⟩

/-- Witness data for C2: an open agent-mode conversation whose guest has a
phone on file. -/
def c2wuser : UserRec := ⟨1, "Adi", some "081234567890", false⟩

def c2wsess : SessionRec :=
  ⟨10, .«open», .agent, some 100, none, none, some 1, some 7, true,
    some "room_service", 100, false⟩

def c2wdb : DB := ⟨[c2wuser], [c2wsess], [], [], 11⟩

/-- Witness for C2: on the normal path the text is persisted as a System
message and forwarded to the gateway in international format. -/
theorem spec_C2_witness :
    (send_message c2wdb 10 "halo" 300 true).outcome = .success ∧
    (send_message c2wdb 10 "halo" 300 true).wahaSent =
      [("6281234567890", "halo")] ∧
    (send_message c2wdb 10 "halo" 300 true).db.messages =
      c2wdb.messages ++ [⟨10, .System, "halo"⟩] :=
  have h := ((spec_C2_send_contract c2wdb 10 "halo" 300 true).2.2 c2wsess
    c2wuser (by decide)).2.2.1 (by decide) (by decide) rfl
  ⟨h.1, by rw [h.2.1]; decide, by rw [h.2.2]; decide⟩

/-- Counterexample for C2 as stated: a terminated conversation whose guest
has no phone on file. The claim's "fails with BadRequest when the guest has
no phone number on file" does not hold — the terminated-session no-op check
runs first, and the call returns success with no side effects. -/
theorem spec_C2_counterexample :
    get_session_with_user
        ⟨[⟨1, "Adi", none, false⟩],
          [⟨10, .terminated, .agent, some 100, some 150, some 50, some 1,
            none, false, none, 150, false⟩], [], [], 11⟩ 10 =
      some (⟨10, .terminated, .agent, some 100, some 150, some 50, some 1,
        none, false, none, 150, false⟩, some ⟨1, "Adi", none, false⟩) ∧
    send_message
        ⟨[⟨1, "Adi", none, false⟩],
          [⟨10, .terminated, .agent, some 100, some 150, some 50, some 1,
            none, false, none, 150, false⟩], [], [], 11⟩ 10 "hello" 300 true =
      ⟨⟨[⟨1, "Adi", none, false⟩],
          [⟨10, .terminated, .agent, some 100, some 150, some 50, some 1,
            none, false, none, 150, false⟩], [], [], 11⟩, [], .success⟩ := by
  exact ⟨by decide, by decide⟩

end MtaSga
